import Mathlib

/-!
Verification of the A2A weather sample server
(src/samples/a2a_communication/server/main module).

The embedding covers: the environment-driven URL resolution performed in
the body of main, the pass-through request handler subclass, the health
route appended to the built application, the CLI option parsing with its
defaults, and the top-level startup guard that catches Exception
instances and exits with code 0.
-/

namespace A2AServer

/-- Python truthiness of an optional environment-variable value, as used by
the condition of each if-branch in the URL resolution: the variable is
present and its value is a non-empty string. -/
def truthy : Option String → Bool
  | none => false
  | some s => s != ""

/-- The URL resolution performed inline in main.  The environment is a map
from variable names to optional values.  Mirrors the source: if both
CONTAINER_APP_NAME and CONTAINER_APP_ENV_DNS_SUFFIX are truthy, build the
HTTPS URL from them; else if A2A_AGENT_HOST is truthy, use its value
verbatim; else fall back to the host/port HTTP URL with a trailing slash.
Inside a taken branch the source indexes the environment directly, which
cannot fail there because the guard already established the value is
present; getD with a default is used to express that total read. -/
def resolveUrl (env : String → Option String) (host : String) (port : Int) : String :=
  if truthy (env "CONTAINER_APP_NAME") && truthy (env "CONTAINER_APP_ENV_DNS_SUFFIX") then
    "https://" ++ ((env "CONTAINER_APP_NAME").getD "") ++ "."
      ++ ((env "CONTAINER_APP_ENV_DNS_SUFFIX").getD "")
  else if truthy (env "A2A_AGENT_HOST") then
    (env "A2A_AGENT_HOST").getD ""
  else
    "http://" ++ host ++ ":" ++ toString port ++ "/"

/-- Removing one variable from an environment, used to compare an
environment holding an empty-string value with the same environment with
that variable unset. -/
def unsetVar (env : String → Option String) (k : String) : String → Option String :=
  fun j => if j = k then none else env j

/-- A concrete environment where CONTAINER_APP_NAME is set to the empty
string and CONTAINER_APP_ENV_DNS_SUFFIX is set to a non-empty value. -/
def envEmptyName : String → Option String := fun k =>
  if k = "CONTAINER_APP_NAME" then some ""
  else if k = "CONTAINER_APP_ENV_DNS_SUFFIX" then some "example.io"
  else none

/-- A concrete environment where A2A_AGENT_HOST is set to the empty string
and the two platform variables are unset. -/
def envEmptyAgent : String → Option String := fun k =>
  if k = "A2A_AGENT_HOST" then some "" else none

/-- The empty environment: no variable is set. -/
def envNone : String → Option String := fun _ => none

/-- A concrete environment, for the C9 witness: A2A_AGENT_HOST set to the
empty string, CONTAINER_APP_NAME set to a non-empty value. -/
def envW9 : String → Option String := fun k =>
  if k = "A2A_AGENT_HOST" then some ""
  else if k = "CONTAINER_APP_NAME" then some "myapp"
  else none

/-- Behaviour of the parent DefaultRequestHandler (an external library
collaborator), abstracted as one function per delegated operation.  Each
operation takes the request object, the forwarded extra arguments, and the
handler state (agent executor plus task store), and returns the response
together with the possibly updated state, so that side effects of the
delegated implementation are visible in the model. -/
structure DefaultRequestHandler (GetReq GetResp SendReq SendResp Args St : Type) where
  on_get_task : GetReq → Args → St → GetResp × St
  on_message_send : SendReq → Args → St → SendResp × St

/-- The overridden on_get_task of A2ARequestHandler: it forwards the
request and the extra arguments to the parent implementation unchanged and
returns the result. -/
def A2ARequestHandler.on_get_task {GetReq GetResp SendReq SendResp Args St : Type}
    (sup : DefaultRequestHandler GetReq GetResp SendReq SendResp Args St)
    (request : GetReq) (args : Args) (st : St) : GetResp × St :=
  sup.on_get_task request args st

/-- The overridden on_message_send of A2ARequestHandler: it forwards the
request and the extra arguments to the parent implementation unchanged and
returns the result. -/
def A2ARequestHandler.on_message_send {GetReq GetResp SendReq SendResp Args St : Type}
    (sup : DefaultRequestHandler GetReq GetResp SendReq SendResp Args St)
    (request : SendReq) (args : Args) (st : St) : SendResp × St :=
  sup.on_message_send request args st

/-- Contents of the in-memory task store: task identifier mapped to task
state.  The health endpoint must be independent of it. -/
abbrev TaskStore := List (String × String)

/-- An inbound HTTP request, reduced to the parts the routing layer and
the health endpoint look at. -/
structure HttpRequest where
  method : String
  path : String
deriving DecidableEq

/-- A JSON response: status code and the key/value pairs of the JSON
object body. -/
structure JSONResponse where
  status_code : Nat
  content : List (String × String)
deriving DecidableEq

/-- A route of the Starlette application: a path and an endpoint.  The
endpoint receives the task-store state along with the request and returns
the response with the possibly updated store, so that state independence
is expressible. -/
structure Route where
  path : String
  endpoint : TaskStore → HttpRequest → JSONResponse × TaskStore

/-- The healthz endpoint from main: returns the static JSON body with
key status and value ok; JSONResponse defaults to status code 200. -/
def healthz (request : HttpRequest) : JSONResponse :=
  { status_code := 200, content := [("status", "ok")] }

/-- The health route appended in main: path /_healthz with the healthz
endpoint, which leaves the task store untouched. -/
def healthzRoute : Route :=
  { path := "/_healthz", endpoint := fun ts req => (healthz req, ts) }

/-- The append performed by main on the route list of the built
application: the health route is added at the end of the existing routes. -/
def appendHealthz (routes : List Route) : List Route :=
  routes ++ [healthzRoute]

/-- Starlette route matching: scan the route list in order and return the
first route whose path matches the request path. -/
def matchRoute (routes : List Route) (p : String) : Option Route :=
  routes.find? (fun r => r.path == p)

/-- A sample protocol route standing for one of the routes the assembled
application registers before the health route is appended. -/
def protoRoute : Route :=
  { path := "/", endpoint := fun ts _ => ({ status_code := 200, content := [] }, ts) }

/-- Decimal value of a digit list, used by the integer conversion of the
port option value. -/
def digitsVal (cs : List Char) : Nat :=
  cs.foldl (fun n c => n * 10 + (c.toNat - 48)) 0

/-- Integer conversion applied by the click INT option type (external
library collaborator) to the port option value: an optional leading minus
sign followed by decimal digits. -/
def parseIntToken (s : String) : Option Int :=
  match s.data with
  | [] => none
  | '-' :: cs =>
    if cs ≠ [] ∧ cs.all Char.isDigit then some (-(Int.ofNat (digitsVal cs))) else none
  | cs => if cs.all Char.isDigit then some (Int.ofNat (digitsVal cs)) else none

/-- The command-line interface declared on main by the click decorators:
two options, named host and port by their long flags, with defaults
0.0.0.0 and 8080.  The parser consumes the argument list, records option
values, and rejects any token that is not one of the two declared
options; on success it yields the host and port values passed to main,
applying the defaults for omitted options. -/
def parseArgs : List String → Option String → Option Int → Except String (String × Int)
  | [], h, p => .ok (h.getD "0.0.0.0", p.getD 8080)
  | t :: rest, h, p =>
    if t = "--host" then
      match rest with
      | [] => .error "Option --host requires an argument"
      | v :: rest2 => parseArgs rest2 (some v) p
    else if t = "--port" then
      match rest with
      | [] => .error "Option --port requires an argument"
      | v :: rest2 =>
        match parseIntToken v with
        | some n => parseArgs rest2 h (some n)
        | none => .error ("Invalid value for --port: " ++ v)
    else .error ("No such option: " ++ t)

/-- Python exceptions as far as the startup guard distinguishes them: an
instance of the Exception class carrying its message, or one of the
BaseException classes that do not derive from Exception, namely
SystemExit with its exit code (raised by sys.exit, in particular by click
on a usage error with code 2) and KeyboardInterrupt. -/
inductive PyBaseException where
  | exception (msg : String)
  | systemExit (code : Int)
  | keyboardInterrupt
deriving DecidableEq

/-- Whether a raised object is an instance of the Exception class, which
is what an except-Exception clause intercepts. -/
def isExceptionInstance : PyBaseException → Bool
  | .exception _ => true
  | .systemExit _ => false
  | .keyboardInterrupt => false

/-- The message printed for an exception instance, as str of the
exception. -/
def excMessage : PyBaseException → String
  | .exception m => m
  | .systemExit c => toString c
  | .keyboardInterrupt => ""

/-- The outcome of invoking main: either it returns normally or it raises
some exception. -/
inductive MainOutcome where
  | normal
  | raises (e : PyBaseException)
deriving DecidableEq

/-- The observable result of the guarded startup block: either the process
exits, having printed the given lines to standard output, with the given
exit code, or the raised exception propagates out of the guard to the
interpreter. -/
inductive GuardResult where
  | exited (printed : List String) (code : Int)
  | propagated (e : PyBaseException)
deriving DecidableEq

/-- The startup guard at the bottom of the module: invoke main inside a
try block; an instance of Exception is caught, its message printed, and
the process exits via sys.exit with code 0; any other raised object
propagates. -/
def mainGuard : MainOutcome → GuardResult
  | .normal => .exited [] 0
  | .raises e =>
    if isExceptionInstance e then .exited [excMessage e] 0 else .propagated e

/-- The final exit code of the process given the guard result: an exit
carries its code; a propagated SystemExit makes the interpreter exit with
the code it carries; for other propagated exceptions the interpreter
terminates by its own uncaught-exception handling, outside this model. -/
def processExitCode : GuardResult → Option Int
  | .exited _ c => some c
  | .propagated (.systemExit c) => some c
  | .propagated _ => none

end A2AServer

namespace A2AServer

theorem truthy_some_of_ne (a : String) (h : a ≠ "") : truthy (some a) = true := by
  simp [truthy, bne_iff_ne, h]

/-- C2 (amended): if both platform variables are set to non-empty values,
the constructed URL is the HTTPS URL built from them, independent of host
and port. -/
theorem resolveUrl_https (env : String → Option String) (host : String) (port : Int)
    (a b : String)
    (ha : env "CONTAINER_APP_NAME" = some a) (ha2 : a ≠ "")
    (hb : env "CONTAINER_APP_ENV_DNS_SUFFIX" = some b) (hb2 : b ≠ "") :
    resolveUrl env host port = "https://" ++ a ++ "." ++ b := by
  unfold resolveUrl
  rw [ha, hb, truthy_some_of_ne a ha2, truthy_some_of_ne b hb2]
  simp

/-- Witness for C2: a concrete environment with both platform variables
set to non-empty values yields the HTTPS URL. -/
theorem resolveUrl_https_witness :
    resolveUrl (fun k =>
        if k = "CONTAINER_APP_NAME" then some "myapp"
        else if k = "CONTAINER_APP_ENV_DNS_SUFFIX" then some "example.io"
        else none) "0.0.0.0" 8080 = "https://" ++ "myapp" ++ "." ++ "example.io" :=
  resolveUrl_https _ _ _ "myapp" "example.io" rfl (by decide) rfl (by decide)

/-- C2 counterexample: CONTAINER_APP_NAME is set (to the empty string) and
CONTAINER_APP_ENV_DNS_SUFFIX is set to a non-empty value, yet the
constructed URL is the HTTP fallback, not the HTTPS URL the claim
predicts. -/
theorem resolveUrl_https_counterexample :
    (envEmptyName "CONTAINER_APP_NAME").isSome = true ∧
    (envEmptyName "CONTAINER_APP_ENV_DNS_SUFFIX").isSome = true ∧
    resolveUrl envEmptyName "0.0.0.0" 8080 = "http://0.0.0.0:8080/" ∧
    resolveUrl envEmptyName "0.0.0.0" 8080 ≠ "https://" ++ "" ++ "." ++ "example.io" := by
  refine ⟨rfl, rfl, ?_, ?_⟩ <;> decide

/-- C3 (amended): if A2A_AGENT_HOST is set to a non-empty value and the
platform app-name/DNS-suffix pair is not both set, the constructed URL is
that value verbatim, with no transformation. -/
theorem resolveUrl_agent_host (env : String → Option String) (host : String) (port : Int)
    (a : String)
    (ha : env "A2A_AGENT_HOST" = some a) (ha2 : a ≠ "")
    (hpair : env "CONTAINER_APP_NAME" = none ∨ env "CONTAINER_APP_ENV_DNS_SUFFIX" = none) :
    resolveUrl env host port = a := by
  unfold resolveUrl
  rw [ha, truthy_some_of_ne a ha2]
  rcases hpair with h | h <;> rw [h] <;> simp [truthy]

/-- Witness for C3: a concrete environment with only A2A_AGENT_HOST set,
to a non-empty value, yields that value verbatim. -/
theorem resolveUrl_agent_host_witness :
    resolveUrl (fun k => if k = "A2A_AGENT_HOST" then some "https://agent.example.io" else none)
      "0.0.0.0" 8080 = "https://agent.example.io" :=
  resolveUrl_agent_host _ _ _ "https://agent.example.io" rfl (by decide) (Or.inl rfl)

/-- C3 counterexample: A2A_AGENT_HOST is set (to the empty string) and the
platform pair is unset, yet the constructed URL is the HTTP fallback, not
the verbatim value of the variable. -/
theorem resolveUrl_agent_host_counterexample :
    (envEmptyAgent "A2A_AGENT_HOST").isSome = true ∧
    envEmptyAgent "CONTAINER_APP_NAME" = none ∧
    envEmptyAgent "CONTAINER_APP_ENV_DNS_SUFFIX" = none ∧
    resolveUrl envEmptyAgent "localhost" 9000 = "http://localhost:9000/" ∧
    resolveUrl envEmptyAgent "localhost" 9000 ≠ "" := by
  refine ⟨rfl, rfl, rfl, ?_, ?_⟩ <;> decide

/-- C4: if none of the three relevant environment variables is set, the
constructed URL is the HTTP URL built from host and port, with a trailing
slash. -/
theorem resolveUrl_fallback (env : String → Option String) (host : String) (port : Int)
    (h1 : env "CONTAINER_APP_NAME" = none)
    (h2 : env "CONTAINER_APP_ENV_DNS_SUFFIX" = none)
    (h3 : env "A2A_AGENT_HOST" = none) :
    resolveUrl env host port = "http://" ++ host ++ ":" ++ toString port ++ "/" := by
  unfold resolveUrl
  rw [h1, h2, h3]
  simp [truthy]

/-- Witness for C4: with the empty environment the constructed URL is the
host/port HTTP URL with a trailing slash. -/
theorem resolveUrl_fallback_witness :
    resolveUrl envNone "0.0.0.0" 8080
      = "http://" ++ "0.0.0.0" ++ ":" ++ toString (8080 : Int) ++ "/" :=
  resolveUrl_fallback envNone "0.0.0.0" 8080 rfl rfl rfl

theorem truthy_unsetVar (env : String → Option String) (k : String)
    (h : env k = some "") (j : String) :
    truthy (unsetVar env k j) = truthy (env j) := by
  unfold unsetVar
  by_cases hj : j = k
  · subst hj
    rw [if_pos rfl, h]
    rfl
  · rw [if_neg hj]

theorem getD_unsetVar (env : String → Option String) (k : String)
    (h : env k = some "") (j : String) :
    (unsetVar env k j).getD "" = (env j).getD "" := by
  unfold unsetVar
  by_cases hj : j = k
  · subst hj
    rw [if_pos rfl, h]
    rfl
  · rw [if_neg hj]

/-- C9: in URL resolution, a variable set to the empty string is treated
exactly like an unset variable: removing it from the environment does not
change the constructed URL.  In particular an empty CONTAINER_APP_NAME or
CONTAINER_APP_ENV_DNS_SUFFIX skips the HTTPS branch, and an empty
A2A_AGENT_HOST falls through to the host/port fallback. -/
theorem resolveUrl_empty_as_unset (env : String → Option String) (k : String)
    (host : String) (port : Int) (h : env k = some "") :
    resolveUrl env host port = resolveUrl (unsetVar env k) host port := by
  unfold resolveUrl
  rw [truthy_unsetVar env k h, truthy_unsetVar env k h, truthy_unsetVar env k h,
    getD_unsetVar env k h, getD_unsetVar env k h, getD_unsetVar env k h]

/-- Witness for C9: on a concrete environment holding an empty value, the
constructed URL equals the one for the environment with that variable
removed. -/
theorem resolveUrl_empty_as_unset_witness :
    envW9 "A2A_AGENT_HOST" = some "" ∧
    resolveUrl envW9 "0.0.0.0" 8080
      = resolveUrl (unsetVar envW9 "A2A_AGENT_HOST") "0.0.0.0" 8080 :=
  ⟨rfl, resolveUrl_empty_as_unset envW9 "A2A_AGENT_HOST" "0.0.0.0" 8080 rfl⟩

/-- C1: when main raises an instance of Exception during startup, the
guard prints the exception message to standard output and the process
terminates with exit code 0, never a non-zero code. -/
theorem startup_guard_exits_zero (msg : String) :
    mainGuard (.raises (.exception msg)) = .exited [msg] 0 ∧
    processExitCode (mainGuard (.raises (.exception msg))) = some 0 :=
  ⟨rfl, rfl⟩

/-- C5: for every parent behaviour, request object, extra arguments and
handler state, each overridden operation of A2ARequestHandler returns
exactly the result of the corresponding parent operation on the same
inputs, including the resulting state, so no additional validation,
transformation, or side effect is added. -/
theorem a2aHandler_delegates {GetReq GetResp SendReq SendResp Args St : Type}
    (sup : DefaultRequestHandler GetReq GetResp SendReq SendResp Args St)
    (gr : GetReq) (sr : SendReq) (args : Args) (st : St) :
    A2ARequestHandler.on_get_task sup gr args st = sup.on_get_task gr args st ∧
    A2ARequestHandler.on_message_send sup sr args st = sup.on_message_send sr args st :=
  ⟨rfl, rfl⟩

/-- C6: for every GET request to the liveness path and every task-store
state, the health endpoint returns status 200 with the static JSON body
mapping status to ok, and leaves the store unchanged; since this holds
for all states, it holds both before and after any protocol operation. -/
theorem healthz_ok (ts : TaskStore) (req : HttpRequest)
    (hm : req.method = "GET") (hp : req.path = "/_healthz") :
    healthzRoute.endpoint ts req = (⟨200, [("status", "ok")]⟩, ts) :=
  rfl

/-- Witness for C6: a concrete GET request to /_healthz against a
non-empty task store gets status 200 and the static body, with the store
unchanged. -/
theorem healthz_ok_witness :
    healthzRoute.endpoint [("task-1", "completed")] ⟨"GET", "/_healthz"⟩
      = (⟨200, [("status", "ok")]⟩, [("task-1", "completed")]) :=
  healthz_ok [("task-1", "completed")] ⟨"GET", "/_healthz"⟩ rfl rfl

/-- C7: appending the health route after the application is assembled
keeps every previously registered route in the list and does not change
the matching behaviour of any path that already matched: whatever route a
path resolved to before the append, it resolves to the same route after. -/
theorem appendHealthz_preserves_routes (routes : List Route) (p : String) (r : Route)
    (h : matchRoute routes p = some r) :
    matchRoute (appendHealthz routes) p = some r ∧
    ∀ q ∈ routes, q ∈ appendHealthz routes := by
  constructor
  · unfold matchRoute appendHealthz
    unfold matchRoute at h
    rw [List.find?_append, h]
    rfl
  · intro q hq
    exact List.mem_append_left _ hq

/-- Witness for C7: with one registered protocol route, its path still
resolves to it after the health route is appended. -/
theorem appendHealthz_preserves_routes_witness :
    matchRoute [protoRoute] "/" = some protoRoute ∧
    matchRoute (appendHealthz [protoRoute]) "/" = some protoRoute :=
  ⟨rfl, (appendHealthz_preserves_routes [protoRoute] "/" protoRoute rfl).1⟩

/-- C8: the command-line interface accepts exactly the options named host
and port by their long flags: with both omitted, main receives the string
0.0.0.0 and the integer 8080; a supplied host value is passed through; a
supplied port value is passed through the integer conversion; and any
other leading token is rejected. -/
theorem cli_options_and_defaults :
    parseArgs [] none none = .ok ("0.0.0.0", 8080) ∧
    (∀ v, parseArgs ["--host", v] none none = .ok (v, 8080)) ∧
    (∀ v n, parseIntToken v = some n →
      parseArgs ["--port", v] none none = .ok ("0.0.0.0", n)) ∧
    (∀ t rest h p, t ≠ "--host" → t ≠ "--port" →
      parseArgs (t :: rest) h p = .error ("No such option: " ++ t)) := by
  refine ⟨rfl, fun v => rfl, fun v n hv => ?_, fun t rest h p h1 h2 => ?_⟩
  · simp [parseArgs, hv]
  · unfold parseArgs
    rw [if_neg h1, if_neg h2]

/-- Witness for C8: a concrete port value is converted and passed to main,
and a concrete unknown option is rejected. -/
theorem cli_options_and_defaults_witness :
    parseArgs ["--port", "9090"] none none = .ok ("0.0.0.0", 9090) ∧
    parseArgs ["--debug"] none none = .error ("No such option: " ++ "--debug") :=
  ⟨cli_options_and_defaults.2.2.1 "9090" 9090 (by decide),
   cli_options_and_defaults.2.2.2 "--debug" [] none none (by decide) (by decide)⟩

/-- C10: the startup guard intercepts only instances of Exception; any
raised object that is not an Exception instance propagates out of the
guard, and in particular the SystemExit with code 2 raised on a CLI usage
error makes the process terminate with the non-zero exit code 2. -/
theorem guard_passes_base_exceptions :
    (∀ e, isExceptionInstance e = false → mainGuard (.raises e) = .propagated e) ∧
    processExitCode (mainGuard (.raises (.systemExit 2))) = some 2 ∧ (2 : Int) ≠ 0 := by
  refine ⟨fun e he => ?_, rfl, by decide⟩
  simp [mainGuard, he]

/-- Witness for C10: the SystemExit raised by a CLI usage error is not an
Exception instance and propagates through the guard. -/
theorem guard_passes_base_exceptions_witness :
    isExceptionInstance (.systemExit 2) = false ∧
    mainGuard (.raises (.systemExit 2)) = .propagated (.systemExit 2) :=
  ⟨rfl, guard_passes_base_exceptions.1 (.systemExit 2) rfl⟩

end A2AServer
